import Mathlib

/-!
Verification of the boot-provisioning agent (`init.py`) against its
specification.  The Python source is shallowly embedded: pure string and
list manipulations become Lean functions on `String` / `List Char`;
filesystem and subprocess effects are passed in as explicit parameters;
Python exceptions become `Except PyExc`.  All definitions are executable
and kernel-reducible (string operations are implemented on `String.data`
by structural recursion, since the byte-based core `String` functions do
not reduce in the kernel).
-/

/-- Kinds of Python exceptions the embedded code can raise.  `exceptionRaised`
stands for a bare `raise Exception(...)`. -/
inductive PyExc where
  | attributeError
  | typeError
  | valueError
  | exceptionRaised
  | httpError
  | transportError
deriving DecidableEq

/-- Split a character list at every character satisfying `p`; the separators
are dropped and empty segments are kept, like Python `str.split(sep)`. -/
def splitPred (p : Char → Bool) : List Char → List (List Char)
  | [] => [[]]
  | a :: as =>
    if p a then [] :: splitPred p as
    else
      match splitPred p as with
      | [] => [[a]]
      | l :: ls => (a :: l) :: ls

/-- Split at a single separator character (Python `str.split("=")` and the
line structure of a file). -/
def splitCh (c : Char) (l : List Char) : List (List Char) :=
  splitPred (fun a => a == c) l

/-- Python `str.split()` with no argument: split on whitespace and drop
empty tokens. -/
def pySplitWhitespace (s : String) : List String :=
  ((splitPred Char.isWhitespace s.data).filter (fun t => t ≠ [])).map String.mk

/-- Truthiness of an optional Python string (`None` and `""` are falsy):
returns the string exactly when it is truthy. -/
def truthyStr (o : Option String) : Option String :=
  match o with
  | none => none
  | some s => if s = "" then none else some s

/-- A JSON string field accessed through the `AttrDict` wrapper: the key can
be absent entirely (attribute access raises `AttributeError`), present as
JSON `null`, or present as a string. -/
inductive PyStrField where
  | absent
  | pynone
  | str (s : String)
deriving DecidableEq

/-- Truthy value of a present `PyStrField` (`absent` is treated as falsy here;
callers that would raise on `absent` must test it first). -/
def fieldTruthy (f : PyStrField) : Option String :=
  match f with
  | PyStrField.absent => none
  | PyStrField.pynone => none
  | PyStrField.str s => if s = "" then none else some s

/-- One entry of `storage.filesystems` in the ignition declaration
(`device`, `format`, `path` are required by the data model; `uuid` is
optional and may be missing from the JSON object). -/
structure Filesystem where
  device : String
  format : String
  path : String
  uuid : PyStrField
deriving DecidableEq

/-- The ignition declaration as far as handoff generation reads it:
the ordered `storage.filesystems` list. -/
structure IgnitionConfig where
  filesystems : List Filesystem
deriving DecidableEq

/-- `get_ignition_root` (init.py:268): return the first filesystem entry whose
mountpoint is `/`, raising a bare `Exception` when none exists. -/
def get_ignition_root (filesystems : List Filesystem) : Except PyExc Filesystem :=
  match filesystems.find? (fun fs => fs.path = "/") with
  | some fs => Except.ok fs
  | none => Except.error PyExc.exceptionRaised

/-- Environment facts consulted by `write_kexec_command` (init.py:238-249):
whether the kernel image, the initramfs image and the `/sysroot` directory
exist at generation time. -/
structure Env where
  kernel_isfile : Bool
  initramfs_isfile : Bool
  sysroot_isdir : Bool
deriving DecidableEq

/-- The `kexec -l` command string built by `write_kexec_command`
(init.py:251). -/
def kexec_cmd (kernel_path initramfs_path kernel_cmdline : String) : String :=
  "kexec -l \"" ++ kernel_path ++ "\" --initrd=\"" ++ initramfs_path ++
    "\" --append=\"" ++ kernel_cmdline ++ "\""

/-- `write_kexec_command` (init.py:217-266): validate the arguments and the
environment, then produce the two-command handoff script that is written to
`/sysroot/.bootstrapped_marker`.  `none` models a `False` return. -/
def write_kexec_command (env : Env) (kernel_path initramfs_path kernel_cmdline : String) :
    Option String :=
  if kernel_path = "" ∨ initramfs_path = "" ∨ kernel_cmdline = "" then none
  else if env.kernel_isfile = false then none
  else if env.initramfs_isfile = false then none
  else if env.sysroot_isdir = false then none
  else some ("#!/bin/bash\n" ++ kexec_cmd kernel_path initramfs_path kernel_cmdline ++
    "\n" ++ "kexec -e\n")

/-- `generate_bootstrapped_file` (init.py:481-531).  `kernel_arguments` is
`NodeConfig["kernel_arguments"]`; `raid_uuid` is the value returned by
`get_raid_uuid` (an external `mdadm` invocation, `None` on failure).  The
result is `Except.error e` when the Python raises `e`, `Except.ok none` when
it returns `False`, and `Except.ok (some (cmdline, script))` on success,
exposing the final `--append` string and the script contents.
Faithful quirks of the source kept here: accessing `root_fs.uuid` on an
`AttrDict` without a `uuid` key raises `AttributeError` (line 492); a falsy
`uuid` reaches the device-path fallback whose test
`'storage' in IgnitionConfig` raises `TypeError` because `AttrDict` supports
no membership test (line 515); a missing raid uuid raises a bare
`Exception` (line 504). -/
def generate_bootstrapped_file (env : Env) (ign : IgnitionConfig)
    (kernel_arguments : String) (raid_uuid : Option String) :
    Except PyExc (Option (String × String)) :=
  match get_ignition_root ign.filesystems with
  | Except.error e => Except.error e
  | Except.ok root_fs =>
    match root_fs.uuid with
    | PyStrField.absent => Except.error PyExc.attributeError
    | u =>
      let root_uuid := fieldTruthy u
      let step1 : Except PyExc String :=
        if "md".data <:+: root_fs.device.data then
          match truthyStr raid_uuid with
          | none => Except.error PyExc.exceptionRaised
          | some ru =>
            Except.ok (kernel_arguments ++ " rd.md=1 rd.md.auto=1 rd.md.uuid=" ++ ru ++ " ")
        else Except.ok kernel_arguments
      match step1 with
      | Except.error e => Except.error e
      | Except.ok c1 =>
        match root_uuid with
        | some us =>
          let c2 := c1 ++ " root=UUID=" ++ us ++ " "
          match write_kexec_command env "/tmp/vmlinuz" "/tmp/initrd.img" c2 with
          | some script => Except.ok (some (c2, script))
          | none => Except.ok none
        | none => Except.error PyExc.typeError

/-- Number of lines of a script that start with `kexec -l` (lines are the
segments between newline characters). -/
def countKexecLines (s : String) : Nat :=
  (splitCh '\n' s.data).countP (fun l => List.isPrefixOf "kexec -l".data l)

/-- Strip leading and trailing whitespace from a character list (the
whitespace tolerance of Python `int(str)`). -/
def stripWs (l : List Char) : List Char :=
  ((l.dropWhile Char.isWhitespace).reverse.dropWhile Char.isWhitespace).reverse

/-- Decimal value of a digit list. -/
def digitsToNat (l : List Char) : Nat :=
  l.foldl (fun n c => n * 10 + (c.toNat - 48)) 0

/-- Rest of a Python decimal digit run after its first digit: digits, with
single underscores allowed only between digits. -/
def digitsUnderscoreTail : List Char → Bool
  | [] => true
  | '_' :: rest =>
    match rest with
    | [] => false
    | c :: rest2 => c.isDigit && digitsUnderscoreTail rest2
  | c :: rest => c.isDigit && digitsUnderscoreTail rest

/-- A valid Python decimal digit run (`int()` grammar): nonempty, starts and
ends with a digit, single underscores allowed between digits (`1_000`). -/
def digitsUnderscoreOk : List Char → Bool
  | [] => false
  | c :: rest => c.isDigit && digitsUnderscoreTail rest

/-- Python `int(str)`: strip surrounding whitespace, allow one optional
sign, then require a digit run per `digitsUnderscoreOk`; `none` models a
`ValueError`.  The model is restricted to ASCII digits and whitespace (the
Unicode decimal digits and spaces that CPython also accepts are out of
scope of this development). -/
def pyIntParse (s : String) : Option Int :=
  match stripWs s.data with
  | [] => none
  | c :: cs =>
    if c = '-' then
      if digitsUnderscoreOk cs then
        some (-(digitsToNat (cs.filter (fun x => x != '_')) : Int))
      else none
    else if c = '+' then
      if digitsUnderscoreOk cs then
        some (digitsToNat (cs.filter (fun x => x != '_')) : Int)
      else none
    else if digitsUnderscoreOk (c :: cs) then
      some (digitsToNat ((c :: cs).filter (fun x => x != '_')) : Int)
    else none

/-- Core comparison of `compare_file_mtime_with_unix_timestamp`
(init.py:600-636) once the file mtime and the parsed timestamp are known,
in source order: the file mtime is read first (`FileNotFoundError` when
the file is missing, modelled by `none`), then
`datetime.datetime.fromtimestamp(file_mtime_unix)` is evaluated
(init.py:615; `fromtsOk` tells whether `fromtimestamp` succeeds for a
value — it raises for timestamps outside `datetime`'s year 1..9999 range,
which is platform- and timezone-dependent), then the timestamp string is
parsed (`none` models the `ValueError` of `int`), then
`datetime.datetime.fromtimestamp(given_unix_timestamp)` (init.py:622);
every exception is caught and turned into `-2`. -/
def compare_mtime_core (fromtsOk : Int → Bool) (mtime : Option Int) (ts : Option Int) : Int :=
  match mtime with
  | none => -2
  | some m =>
    if fromtsOk m = false then -2
    else
      match ts with
      | none => -2
      | some t =>
        if fromtsOk t = false then -2
        else if m > t then 1 else if m < t then -1 else 0

/-- `compare_file_mtime_with_unix_timestamp` (init.py:600-636): `fromtsOk`
models the success of `datetime.datetime.fromtimestamp`, `mtime` is the
state of the file at `file_path` (`none` when the file is missing) and the
last argument is the timestamp string. -/
def compare_file_mtime_with_unix_timestamp (fromtsOk : Int → Bool) (mtime : Option Int)
    (unix_timestamp_str : String) : Int :=
  compare_mtime_core fromtsOk mtime (pyIntParse unix_timestamp_str)

/-- State of the `BOOTSTRAPPED_MARKER` file under the target root. -/
structure MarkerState where
  present : Bool
  mtime : Int
deriving DecidableEq

/-- The handoff-reconciliation step of `main` (init.py:916-928): when the
marker is absent, `generate_bootstrapped_file` is invoked (a successful
generation leaves a marker with mtime `newMtime`); then the marker mtime is
compared with `config_timestamp` (an integer, so `int()` cannot fail, but
the `fromtimestamp` calls of the comparison helper can) and a `-1` result
triggers regeneration.  Returns whether the handoff script was (re)written
and the final marker state. -/
def main_handoff_step (fromtsOk : Int → Bool) (st : MarkerState) (genSucceeds : Bool)
    (newMtime config_timestamp : Int) : Bool × MarkerState :=
  let first :=
    if st.present = false then
      if genSucceeds then (true, MarkerState.mk true newMtime) else (false, st)
    else (false, st)
  let st1 := first.2
  let cmp := compare_mtime_core fromtsOk (if st1.present then some st1.mtime else none)
    (some config_timestamp)
  if cmp = -1 then
    if genSucceeds then (true, MarkerState.mk true newMtime) else (first.1, st1)
  else (first.1, st1)

/-- The statement of claim C3 for a given `fromtimestamp` success
predicate: the orchestrator regenerates the handoff script if and only if
the `BOOTSTRAPPED_MARKER` is absent or its mtime is less than
`config_timestamp` (generation itself assumed to succeed). -/
def C3ClaimStatement (fromtsOk : Int → Bool) : Prop :=
  ∀ (st : MarkerState) (newMtime ts : Int),
    (main_handoff_step fromtsOk st true newMtime ts).1 = true ↔
      (st.present = false ∨ st.mtime < ts)

/-- A representative success predicate for
`datetime.datetime.fromtimestamp`: CPython accepts exactly the timestamps
that land in years 1..9999 (the bounds shown are the UTC ones; the exact
cutoffs shift with the local timezone, but every platform rejects values
far outside this window, such as 3·10¹¹). -/
def datetimeRangeOk (t : Int) : Bool :=
  decide (-62135596800 ≤ t ∧ t ≤ 253402300799)

/-- One attempt of the HTTP GET issued by `read_node_configuration`: either
the transport fails (`requests.get` raises) or a response arrives with a
status code and a flag telling whether its `Content-Type` contains
`application/json`. -/
inductive HttpAttempt where
  | transportError
  | response (status : Nat) (contentTypeJson : Bool)
deriving DecidableEq

/-- The retry loop of `read_node_configuration` (init.py:567-580), from
attempt index `i` with `remaining` iterations left.  `requests.get` raising
propagates immediately (`transportError`); `raise_for_status` raises
exactly for statuses 400-599 (`httpError`); a response whose status does
not raise and whose `Content-Type` contains
`application/json` returns the parsed body (modelled by the attempt index);
otherwise the loop continues.  Falling off the loop returns `None`. -/
def read_node_config_loop (attempts : Nat → HttpAttempt) (i remaining : Nat) :
    Except PyExc (Option Nat) :=
  match remaining with
  | 0 => Except.ok none
  | r + 1 =>
    match attempts i with
    | HttpAttempt.transportError => Except.error PyExc.transportError
    | HttpAttempt.response status ctJson =>
      if 400 ≤ status ∧ status < 600 then Except.error PyExc.httpError
      else if ctJson then Except.ok (some i)
      else read_node_config_loop attempts (i + 1) r

/-- `read_node_configuration` (init.py:567-580): `for retry in range(0, 5)`. -/
def read_node_configuration (attempts : Nat → HttpAttempt) : Except PyExc (Option Nat) :=
  read_node_config_loop attempts 0 5

/-- One step of the dictionary build in `read_proc_cmdline` (init.py:590-593):
for a token containing `=`, `config[ents[0]] = ents[1]` where
`ents = token.split("=")`. -/
def cmdline_step (cfg : String → Option String) (token : String) : String → Option String :=
  if token.data.contains '=' then
    let ents := (splitCh '=' token.data).map String.mk
    fun k => if k = ents.getD 0 "" then some (ents.getD 1 "") else cfg k
  else cfg

/-- `read_proc_cmdline` (init.py:582-595): split the kernel command line on
whitespace and record `ents[0] ↦ ents[1]` for every token containing `=`
(later tokens overwrite earlier ones).  The returned map is the lookup
function of the resulting dictionary. -/
def read_proc_cmdline (contents : String) : String → Option String :=
  (pySplitWhitespace contents).foldl cmdline_step (fun _ => none)

/-- The personalization step for the authorized-keys file (init.py:942-949):
content written to `/sysroot/root/.ssh/authorized_keys` and the mode passed
to `os.chmod`.  The parent directory is created with
`os.makedirs(exist_ok=True)` beforehand. -/
def authorized_keys_write (ssh_key : String) : String × Nat :=
  ("nameserver " ++ ssh_key ++ "\n", 0o600)

/-- The chroot helper script composed by `process_systemd_service`
(init.py:830-856).  Note that the source iterates the *enable* list for
both the `systemctl enable` and the `systemctl disable` loop (lines 841 and
844), and its `chroot` invocations pass `/bin/bash` in the NEWROOT
position. -/
def process_systemd_service_script (enable disable : List String) : String :=
  "\n#!/bin/bash\nmount --bind /dev  /sysroot/dev\nmount --bind /proc /sysroot/proc\nmount --bind /sys  /sysroot/sys\n"
    ++ String.join (enable.map
        (fun service => "chroot /bin/bash -c \x27systemctl enable " ++ service ++ "\x27 \n"))
    ++ String.join (enable.map
        (fun service => "chroot /bin/bash -c \x27systemctl disable " ++ service ++ "\x27 \n"))
    ++ "\numount /sysroot/sys\numount /sysroot/proc\numount /sysroot/dev\n"

/-- One entry of an interface's `routes` list in the node configuration:
`ip_or_range` (absent modelled as `none`) and `default`
(`route.get("default", False)`). -/
structure RouteEntry where
  ip_or_range : Option String
  default : Bool
deriving DecidableEq

/-- One value of the `interfaces` mapping in the node configuration.  The
JSON object is a plain dict, so `get` returns `None` for absent keys.  Both
`mac` (read by the declarative-YAML generator) and `macaddress` (the key the
line-oriented generator reads) are modelled. -/
structure PyInterface where
  mac : Option String
  macaddress : Option String
  ipv4 : Option String
  netmask : Option String
  gateway : Option String
  routes : List RouteEntry
deriving DecidableEq

/-- A route mapping emitted into the netplan `routes` list:
`{"to": ..., "via": ...}` with `via` optional. -/
structure NetplanRoute where
  toVal : String
  via : Option String
deriving DecidableEq

/-- The per-interface mapping placed under `network.ethernets`
by `generate_netplan_yaml` (insertion order: `dhcp4`, `addresses`,
`routes`, then `macaddress` when present). -/
structure EthernetConfig where
  dhcp4 : Bool
  addresses : List String
  routes : List NetplanRoute
  macaddress : Option String
deriving DecidableEq

/-- The whole document built by `generate_netplan_yaml` before dumping:
`network.version`, `network.renderer` and the `ethernets` mapping in
interface order. -/
structure NetplanConfig where
  version : Nat
  renderer : String
  ethernets : List (String × EthernetConfig)
deriving DecidableEq

/-- The per-interface body of `generate_netplan_yaml` (init.py:657-698).
`ipParse` models `ipaddress.IPv4Interface((ipv4, netmask))` followed by
`str(...)`: it returns the CIDR literal, or `none` when the library raises
(the address is then omitted with a warning). -/
def mkEthernet (ipParse : String → String → Option String) (ic : PyInterface) :
    EthernetConfig :=
  let addresses :=
    match truthyStr ic.ipv4, truthyStr ic.netmask with
    | some ip, some nm =>
      match ipParse ip nm with
      | some cidr => [cidr]
      | none => []
    | _, _ => []
  let gwRoutes :=
    match truthyStr ic.gateway with
    | some g => [NetplanRoute.mk "0.0.0.0/0" (some g)]
    | none => []
  let stRoutes := ic.routes.filterMap (fun r =>
    match truthyStr r.ip_or_range with
    | some t => if r.default then none else some (NetplanRoute.mk t none)
    | none => none)
  EthernetConfig.mk false addresses (gwRoutes ++ stRoutes) (truthyStr ic.mac)

/-- `generate_netplan_yaml` (init.py:638-698), up to the final `yaml.dump`:
the document tree. -/
def generate_netplan_config (ipParse : String → String → Option String)
    (interfaces : List (String × PyInterface)) : NetplanConfig :=
  NetplanConfig.mk 2 "networkd" (interfaces.map (fun p => (p.1, mkEthernet ipParse p.2)))

/-- `NoAliasDumper.ignore_aliases` (init.py:701-703): always `True`, so the
dumper never emits anchors or aliases. -/
def noAliasDumper_ignore_aliases : Bool := true

/-- Output tokens of the YAML emitter: mapping keys, scalars, sequence
items, and the anchor/alias markers (`&id...` / `*id...`) that an emitter
produces when it shares repeated nodes instead of duplicating them. -/
inductive YTok where
  | key (s : String)
  | scalar (s : String)
  | seqItem
  | anchor (s : String)
  | aliasRef (s : String)
deriving DecidableEq

/-- Emit one string scalar.  With `ignoreAliases = false` the emitter
anchors a fresh value and emits an alias reference for a value already
seen; with `ignoreAliases = true` (the `NoAliasDumper` of the source) every
occurrence is emitted in full. -/
def emitStr (ignoreAliases : Bool) (seen : List String) (s : String) :
    List YTok × List String :=
  if ignoreAliases = false ∧ seen.contains s then ([YTok.aliasRef s], seen)
  else if ignoreAliases = false then ([YTok.anchor s, YTok.scalar s], s :: seen)
  else ([YTok.scalar s], s :: seen)

/-- Emit a sequence of string scalars (the `addresses` list). -/
def emitStrSeq (ia : Bool) (seen : List String) : List String → List YTok × List String
  | [] => ([], seen)
  | s :: rest =>
    let e1 := emitStr ia seen s
    let e2 := emitStrSeq ia e1.2 rest
    (YTok.seqItem :: e1.1 ++ e2.1, e2.2)

/-- Emit one netplan route mapping. -/
def emitRoute (ia : Bool) (seen : List String) (r : NetplanRoute) :
    List YTok × List String :=
  let e1 := emitStr ia seen r.toVal
  match r.via with
  | none => (YTok.seqItem :: YTok.key "to" :: e1.1, e1.2)
  | some v =>
    let e2 := emitStr ia e1.2 v
    (YTok.seqItem :: YTok.key "to" :: e1.1 ++ YTok.key "via" :: e2.1, e2.2)

/-- Emit the `routes` sequence. -/
def emitRoutes (ia : Bool) (seen : List String) : List NetplanRoute → List YTok × List String
  | [] => ([], seen)
  | r :: rest =>
    let e1 := emitRoute ia seen r
    let e2 := emitRoutes ia e1.2 rest
    (e1.1 ++ e2.1, e2.2)

/-- Emit one `ethernets` entry (key order as inserted by the source:
`dhcp4`, `addresses`, `routes`, optional `macaddress`). -/
def emitEthernet (ia : Bool) (seen : List String) (name : String) (ec : EthernetConfig) :
    List YTok × List String :=
  let addrs := emitStrSeq ia seen ec.addresses
  let rts := emitRoutes ia addrs.2 ec.routes
  let macToks :=
    match ec.macaddress with
    | none => ([], rts.2)
    | some m =>
      let em := emitStr ia rts.2 m
      (YTok.key "macaddress" :: em.1, em.2)
  (YTok.key name :: YTok.key "dhcp4" :: YTok.scalar (if ec.dhcp4 then "true" else "false") ::
      YTok.key "addresses" :: addrs.1 ++ YTok.key "routes" :: rts.1 ++ macToks.1,
    macToks.2)

/-- Emit the `ethernets` mapping. -/
def emitEthernets (ia : Bool) (seen : List String) :
    List (String × EthernetConfig) → List YTok × List String
  | [] => ([], seen)
  | e :: rest =>
    let e1 := emitEthernet ia seen e.1 e.2
    let e2 := emitEthernets ia e1.2 rest
    (e1.1 ++ e2.1, e2.2)

/-- The token stream of `yaml.dump(netplan_config, Dumper=NoAliasDumper,
sort_keys=False)` (init.py:705), with the alias behaviour controlled by
`ia` (the value of the dumper's `ignore_aliases`). -/
def netplan_dump_toks (ia : Bool) (cfg : NetplanConfig) : List YTok :=
  let er := emitStr ia [] cfg.renderer
  let ee := emitEthernets ia er.2 cfg.ethernets
  YTok.key "network" :: YTok.key "version" :: YTok.scalar (toString cfg.version) ::
    YTok.key "renderer" :: er.1 ++ YTok.key "ethernets" :: ee.1

/-- `generate_netplan_yaml` end to end: the emitted token stream, dumped
with the `NoAliasDumper`. -/
def generate_netplan_yaml (ipParse : String → String → Option String)
    (interfaces : List (String × PyInterface)) : List YTok :=
  netplan_dump_toks noAliasDumper_ignore_aliases (generate_netplan_config ipParse interfaces)

/-- Whether a token is an anchor or alias marker. -/
def isAliasTok (t : YTok) : Bool :=
  match t with
  | YTok.anchor _ => true
  | YTok.aliasRef _ => true
  | _ => false

/-- The per-interface configuration lines built by
`generate_ifupdown_interfaces` (init.py:742-787).  `ipPairOk` models the
validation `IPv4Interface((ipv4, netmask))` (false = the library raises, in
which case both the `address` and the `netmask` line are skipped with a
warning).  Note that the MAC line reads the key `macaddress` (line 749),
not the `mac` key of the data model. -/
def ifupdown_lines (ipPairOk : String → String → Bool) (interface_name : String)
    (ic : PyInterface) : List String :=
  ["auto " ++ interface_name, "iface " ++ interface_name ++ " inet static"]
    ++ (match truthyStr ic.macaddress with
        | some m => ["    hwaddress ether " ++ m]
        | none => [])
    ++ (match truthyStr ic.ipv4, truthyStr ic.netmask with
        | some ip, some nm =>
          if ipPairOk ip nm then ["    address " ++ ip, "    netmask " ++ nm] else []
        | _, _ => [])
    ++ (match truthyStr ic.gateway with
        | some g => ["    gateway " ++ g]
        | none => [])
    ++ ic.routes.filterMap (fun r =>
        match truthyStr r.ip_or_range with
        | some t =>
          if r.default then none
          else some ("    post-up ip route add " ++ t ++ " dev " ++ interface_name)
        | none => none)

/-- `generate_ifupdown_interfaces` (init.py:729-791): one file content per
interface, the lines joined with newlines plus a trailing newline. -/
def generate_ifupdown_interfaces (ipPairOk : String → String → Bool)
    (interfaces : List (String × PyInterface)) : List (String × String) :=
  interfaces.map (fun p =>
    (p.1, String.intercalate "\n" (ifupdown_lines ipPairOk p.1 p.2) ++ "\n"))

/-- The contribution of a single command-line token to the lookup of key
`k`: defined exactly as `cmdline_step` records it (`ents[0] ↦ ents[1]`). -/
def cmdline_entry (k : String) (token : String) : Option String :=
  if token.data.contains '=' ∧ ((splitCh '=' token.data).map String.mk).getD 0 "" = k then
    some (((splitCh '=' token.data).map String.mk).getD 1 "")
  else none

/-- No token of the list is an anchor or alias marker. -/
def noAlias (l : List YTok) : Prop := ∀ t ∈ l, isAliasTok t = false

/-- The statement of claim C1 at given inputs: after successful handoff
generation the script contains exactly one `kexec -l` line, and the append
string begins with `kernel_arguments` and contains all three tokens
`rd.md=1`, `rd.md.auto=1` and `rd.md.uuid=<raid-uuid>` if and only if the
ignition root filesystem's device denotes a RAID (md) device. -/
def C1ClaimStatement (env : Env) (ign : IgnitionConfig) (kernel_arguments : String)
    (raid_uuid : Option String) : Prop :=
  ∀ fs c s, get_ignition_root ign.filesystems = Except.ok fs →
    generate_bootstrapped_file env ign kernel_arguments raid_uuid = Except.ok (some (c, s)) →
    countKexecLines s = 1 ∧
    (∃ rest, c.data = kernel_arguments.data ++ rest) ∧
    (("rd.md=1".data <:+: c.data ∧ "rd.md.auto=1".data <:+: c.data ∧
        ∃ x, ("rd.md.uuid=" ++ x).data <:+: c.data) ↔ "md".data <:+: fs.device.data)

theorem splitPred_ne_nil (p : Char → Bool) (l : List Char) : splitPred p l ≠ [] := by
  induction l with
  | nil => simp [splitPred]
  | cons a as ih =>
    simp only [splitPred]
    split
    · simp
    · split
      · simp
      · simp

theorem splitPred_append_sep (p : Char → Bool) (c : Char) (hc : p c = true)
    (a b : List Char) : splitPred p (a ++ c :: b) = splitPred p a ++ splitPred p b := by
  induction a with
  | nil => simp [splitPred, hc]
  | cons x xs ih =>
    by_cases hx : p x
    · simp [splitPred, hx, ih]
    · simp only [List.cons_append, splitPred, hx, Bool.false_eq_true, if_false]
      simp only [List.append_eq]
      rw [ih]
      cases h : splitPred p xs with
      | nil => exact absurd h (splitPred_ne_nil p xs)
      | cons y ys => simp [h]

theorem splitPred_no_sep (p : Char → Bool) (l : List Char) (h : ∀ x ∈ l, p x = false) :
    splitPred p l = [l] := by
  induction l with
  | nil => simp [splitPred]
  | cons a as ih =>
    have ha : p a = false := h a (by simp)
    have ih2 := ih (fun x hx => h x (by simp [hx]))
    simp [splitPred, ha, ih2]

theorem infix_append_elim {α : Type} {p a b : List α} (h : p <:+: a ++ b) :
    p <:+: a ∨ p <:+: b ∨
      ∃ s t, p = s ++ t ∧ s ≠ [] ∧ t ≠ [] ∧ s <:+ a ∧ t <+: b := by
  obtain ⟨u, v, huv⟩ := h
  have h1 : u ++ (p ++ v) = a ++ b := by simpa [List.append_assoc] using huv
  rcases List.append_eq_append_iff.mp h1 with ⟨w, hw1, hw2⟩ | ⟨w, hw1, hw2⟩
  · rcases List.append_eq_append_iff.mp hw2 with ⟨x, hx1, hx2⟩ | ⟨x, hx1, hx2⟩
    · left
      exact ⟨u, x, by rw [hw1, hx1, List.append_assoc]⟩
    · by_cases hw : w = []
      · right; left
        subst hw
        simp only [List.nil_append] at hx1
        exact ⟨[], v, by rw [hx2, hx1]; simp⟩
      · by_cases hx : x = []
        · left
          subst hx
          simp only [List.append_nil] at hx1
          exact ⟨u, [], by rw [hw1, hx1]; simp⟩
        · right; right
          exact ⟨w, x, hx1, hw, hx, ⟨u, hw1.symm⟩, ⟨v, hx2.symm⟩⟩
  · right; left
    exact ⟨w, v, by rw [hw2, List.append_assoc]⟩

theorem infix_cons_elim {α : Type} {p b : List α} {c : α} (hc : c ∉ p) (h : p <:+: c :: b) :
    p <:+: b := by
  obtain ⟨u, v, huv⟩ := h
  cases u with
  | nil =>
    cases p with
    | nil => exact List.nil_infix
    | cons q qs =>
      simp only [List.nil_append, List.cons_append] at huv
      have hq : q = c := (List.cons.injEq ..).mp huv |>.1
      exact absurd (hq ▸ List.mem_cons_self q qs) hc
  | cons x xs =>
    simp only [List.cons_append] at huv
    have hb : xs ++ p ++ v = b := ((List.cons.injEq ..).mp huv).2
    exact ⟨xs, v, hb⟩

theorem not_infix_append_sep {α : Type} {p a b : List α} {c : α} (hc : c ∉ p)
    (ha : ¬ p <:+: a) (hb : ¬ p <:+: b) : ¬ p <:+: a ++ c :: b := by
  intro h
  rcases infix_append_elim h with h1 | h1 | ⟨s, t, hp, hs, ht, hsuf, hpre⟩
  · exact ha h1
  · exact hb (infix_cons_elim hc h1)
  · obtain ⟨r, hr⟩ := hpre
    cases t with
    | nil => exact ht rfl
    | cons t0 ts =>
      simp only [List.cons_append] at hr
      have h0 : t0 = c := ((List.cons.injEq ..).mp hr).1
      exact hc (by rw [hp, h0]; simp)

set_option maxRecDepth 40000 in
/-- Claim C4: the claim states that the service-toggler script runs
`systemctl enable` for each service of `systemd.enable` and
`systemctl disable` for each service of `systemd.disable`.  The code
instead iterates the enable list in both loops: with
`enable = ["svc_a"]` and `disable = ["svc_b"]` the generated script
contains `systemctl disable svc_a` and no `systemctl disable svc_b`. -/
theorem C4_disable_list_bug :
    ("systemctl disable svc_a".data <:+:
      (process_systemd_service_script ["svc_a"] ["svc_b"]).data) ∧
    ¬ ("systemctl disable svc_b".data <:+:
      (process_systemd_service_script ["svc_a"] ["svc_b"]).data) ∧
    ("systemctl enable svc_a".data <:+:
      (process_systemd_service_script ["svc_a"] ["svc_b"]).data) := by
  refine ⟨by decide, by decide, by decide⟩

/-- Claim C5: the claim states that the node-config fetch retries up to 5
attempts on a transport error or non-2xx status and only signals failure
after exhausting the retries.  The code raises out of the loop on the very
first transport error or non-2xx response: a 500 on attempt 0 aborts with
the `raise_for_status` exception and a transport error on attempt 0 aborts
with the transport exception, even though perfectly good responses would
follow; only the 2xx-but-not-JSON case is ever retried (and exhausting it
returns `None`). -/
theorem C5_retry_bug :
    read_node_configuration (fun n => if n = 0 then HttpAttempt.response 500 true
      else HttpAttempt.response 200 true) = Except.error PyExc.httpError ∧
    read_node_configuration (fun n => if n = 0 then HttpAttempt.transportError
      else HttpAttempt.response 200 true) = Except.error PyExc.transportError ∧
    read_node_configuration (fun n => if n = 1 then HttpAttempt.response 200 true
      else HttpAttempt.response 200 false) = Except.ok (some 1) ∧
    read_node_configuration (fun _ => HttpAttempt.response 200 false) = Except.ok none := by
  refine ⟨rfl, rfl, rfl, rfl⟩

/-- Claim C6: the claim states that `/root/.ssh/authorized_keys` receives
exactly the configured SSH key with no extra prefix token, mode 0600.  The
mode is 0600, but the code writes the key prefixed with the literal token
`nameserver `. -/
theorem C6_authorized_keys_bug :
    (authorized_keys_write "ssh-rsa AAAAB3Nza root@node").1 =
      "nameserver ssh-rsa AAAAB3Nza root@node\n" ∧
    (authorized_keys_write "ssh-rsa AAAAB3Nza root@node").1 ≠
      "ssh-rsa AAAAB3Nza root@node\n" ∧
    (authorized_keys_write "ssh-rsa AAAAB3Nza root@node").2 = 0o600 := by
  refine ⟨rfl, by decide, rfl⟩

set_option maxRecDepth 40000 in
/-- Claim C8: the claim states that for an interface whose entry has a
`mac` field the line-oriented backend emits a `hwaddress ether <mac>` line.
The code looks up the key `macaddress` (init.py:749) while the data model
(and the declarative-YAML generator) use the key `mac`, so for an entry
carrying `mac` the generated file has no `hwaddress` line at all (the
`auto <name>` / `iface <name> inet static` header does match the claimed
template). -/
theorem C8_hwaddress_bug :
    generate_ifupdown_interfaces (fun _ _ => true)
      [("eno1", PyInterface.mk (some "aa:bb:cc:dd:ee:ff") none (some "10.0.0.2")
        (some "255.255.255.0") none [])] =
      [("eno1",
        "auto eno1\niface eno1 inet static\n    address 10.0.0.2\n    netmask 255.255.255.0\n")] ∧
    (PyInterface.mk (some "aa:bb:cc:dd:ee:ff") none (some "10.0.0.2")
      (some "255.255.255.0") none []).mac = some "aa:bb:cc:dd:ee:ff" ∧
    ¬ ("hwaddress".data <:+:
      ("auto eno1\niface eno1 inet static\n    address 10.0.0.2\n    netmask 255.255.255.0\n").data) := by
  refine ⟨by decide, rfl, by decide⟩

/-- Claim C2: the claim states that when the ignition root filesystem entry
carries no uuid, handoff generation still succeeds and the append string
falls back to `root=<device-path>`.  In the code that path is dead: with no
`uuid` key the attribute access `root_fs.uuid` raises `AttributeError`, and
with a falsy uuid (JSON null) the fallback's membership test
`'storage' in IgnitionConfig` raises `TypeError` on the `AttrDict`, so
generation never produces `root=/dev/sda2`.  The uuid-present branch of the
claim does hold: with uuid `1111-AAAA` the append string carries
`root=UUID=1111-AAAA`. -/
theorem C2_uuid_fallback_bug :
    generate_bootstrapped_file (Env.mk true true true)
      (IgnitionConfig.mk [Filesystem.mk "/dev/sda2" "ext4" "/" PyStrField.absent])
      "ro quiet" none = Except.error PyExc.attributeError ∧
    generate_bootstrapped_file (Env.mk true true true)
      (IgnitionConfig.mk [Filesystem.mk "/dev/sda2" "ext4" "/" PyStrField.pynone])
      "ro quiet" none = Except.error PyExc.typeError ∧
    generate_bootstrapped_file (Env.mk true true true)
      (IgnitionConfig.mk [Filesystem.mk "/dev/sda2" "ext4" "/" (PyStrField.str "1111-AAAA")])
      "ro quiet" none =
      Except.ok (some ("ro quiet root=UUID=1111-AAAA ",
        "#!/bin/bash\nkexec -l \"/tmp/vmlinuz\" --initrd=\"/tmp/initrd.img\" --append=\"ro quiet root=UUID=1111-AAAA \"\nkexec -e\n")) := by
  refine ⟨rfl, rfl, rfl⟩


theorem cmdline_step_eq_some (f : String → Option String) (x k v : String)
    (h : cmdline_entry k x = some v) : cmdline_step f x k = some v := by
  unfold cmdline_entry at h
  unfold cmdline_step
  split at h
  · rename_i hcond
    rw [if_pos hcond.1]
    rw [if_pos hcond.2.symm]
    exact h
  · exact absurd h (by simp)

theorem cmdline_step_eq_none (f : String → Option String) (x k : String)
    (h : cmdline_entry k x = none) : cmdline_step f x k = f k := by
  unfold cmdline_entry at h
  unfold cmdline_step
  split at h
  · exact absurd h (by simp)
  · rename_i hcond
    by_cases hc : x.data.contains '='
    · rw [if_pos hc]
      rw [if_neg (fun hk => hcond ⟨hc, hk.symm⟩)]
    · rw [if_neg hc]

theorem cmdline_foldl_lookup (tokens : List String) (init : String → Option String)
    (k : String) :
    (tokens.foldl cmdline_step init) k =
      match (tokens.filterMap (cmdline_entry k)).getLast? with
      | some v => some v
      | none => init k := by
  induction tokens using List.reverseRecOn with
  | nil => simp
  | append_singleton xs x ih =>
    rw [List.foldl_append]
    rcases hx : cmdline_entry k x with _ | v
    · rw [List.foldl_cons, List.foldl_nil]
      rw [cmdline_step_eq_none _ x k hx, ih]
      rw [List.filterMap_append]
      simp [List.filterMap, hx]
    · rw [List.foldl_cons, List.foldl_nil]
      rw [cmdline_step_eq_some _ x k v hx]
      rw [List.filterMap_append]
      simp [List.filterMap, hx]

/-- Claim C9 (amended): the kernel command-line reader splits the contents
on whitespace and returns a mapping with an entry for every token
containing `=`; a token maps the text before its first `=`
(`token.split("=")[0]`) to the text between its first and second `=`
(`token.split("=")[1]`, i.e. the value truncated at the next `=`), the
last occurrence wins on duplicate keys, and tokens without `=` are
ignored.  Stated as: the lookup of any key equals the entry contributed by
the last token that records that key. -/
theorem C9_cmdline_amended (contents : String) (k : String) :
    read_proc_cmdline contents k =
      ((pySplitWhitespace contents).filterMap (cmdline_entry k)).getLast? := by
  unfold read_proc_cmdline
  rw [cmdline_foldl_lookup]
  rcases ((pySplitWhitespace contents).filterMap (cmdline_entry k)).getLast? with _ | v
  · rfl
  · rfl

/-- Claim C9 (counterexample): for the kernel command line
`root=UUID=abcd quiet`, the token `root=UUID=abcd` contains `=` with key
`root` and value `UUID=abcd`, but the returned mapping sends `root` to
`UUID` — `token.split("=")[1]` truncates the value at the second `=` — so
the reader does not map each key to its value as the claim states. -/
theorem C9_cmdline_counterexample :
    read_proc_cmdline "root=UUID=abcd quiet" "root" = some "UUID" ∧
    read_proc_cmdline "root=UUID=abcd quiet" "root" ≠ some "UUID=abcd" := by
  refine ⟨by decide, by decide⟩

theorem emitStr_true_eq (seen : List String) (s : String) :
    emitStr true seen s = ([YTok.scalar s], s :: seen) := by
  simp [emitStr]

theorem emitStrSeq_no_alias (seen : List String) (l : List String) :
    noAlias (emitStrSeq true seen l).1 := by
  induction l generalizing seen with
  | nil =>
    intro t ht
    simp [emitStrSeq] at ht
  | cons s rest ih =>
    intro t ht
    simp only [emitStrSeq, emitStr_true_eq, List.singleton_append, List.cons_append] at ht
    rcases List.mem_cons.mp ht with rfl | ht2
    · rfl
    rcases List.mem_cons.mp ht2 with rfl | ht3
    · rfl
    exact ih (s :: seen) t ht3

theorem emitRoute_no_alias (seen : List String) (r : NetplanRoute) :
    noAlias (emitRoute true seen r).1 := by
  rcases r with ⟨tv, via⟩
  rcases via with _ | v
  · intro t ht
    simp only [emitRoute, emitStr_true_eq] at ht
    rcases List.mem_cons.mp ht with rfl | ht2
    · rfl
    rcases List.mem_cons.mp ht2 with rfl | ht3
    · rfl
    rcases List.mem_singleton.mp ht3 with rfl
    rfl
  · intro t ht
    simp only [emitRoute, emitStr_true_eq, List.singleton_append, List.cons_append] at ht
    rcases List.mem_cons.mp ht with rfl | ht2
    · rfl
    rcases List.mem_cons.mp ht2 with rfl | ht3
    · rfl
    rcases List.mem_cons.mp ht3 with rfl | ht4
    · rfl
    rcases List.mem_cons.mp ht4 with rfl | ht5
    · rfl
    rcases List.mem_singleton.mp ht5 with rfl
    rfl

theorem emitRoutes_no_alias (seen : List String) (l : List NetplanRoute) :
    noAlias (emitRoutes true seen l).1 := by
  induction l generalizing seen with
  | nil =>
    intro t ht
    simp [emitRoutes] at ht
  | cons r rest ih =>
    intro t ht
    simp only [emitRoutes] at ht
    rcases List.mem_append.mp ht with h | h
    · exact emitRoute_no_alias seen r t h
    · exact ih (emitRoute true seen r).2 t h

theorem emitEthernet_no_alias (seen : List String) (name : String) (ec : EthernetConfig) :
    noAlias (emitEthernet true seen name ec).1 := by
  intro t ht
  simp only [emitEthernet, List.cons_append, List.singleton_append, List.append_assoc] at ht
  rcases List.mem_cons.mp ht with rfl | ht2
  · rfl
  rcases List.mem_cons.mp ht2 with rfl | ht3
  · rfl
  rcases List.mem_cons.mp ht3 with rfl | ht4
  · rfl
  rcases List.mem_cons.mp ht4 with rfl | ht5
  · rfl
  rcases List.mem_append.mp ht5 with h | h
  · exact emitStrSeq_no_alias seen ec.addresses t h
  rcases List.mem_cons.mp h with rfl | h2
  · rfl
  rcases List.mem_append.mp h2 with h3 | h3
  · exact emitRoutes_no_alias (emitStrSeq true seen ec.addresses).2 ec.routes t h3
  · rcases hmac : ec.macaddress with _ | m
    · rw [hmac] at h3
      simp at h3
    · rw [hmac] at h3
      simp only [emitStr_true_eq] at h3
      rcases List.mem_cons.mp h3 with rfl | h4
      · rfl
      rcases List.mem_singleton.mp h4 with rfl
      rfl

theorem emitEthernets_no_alias (seen : List String) (l : List (String × EthernetConfig)) :
    noAlias (emitEthernets true seen l).1 := by
  induction l generalizing seen with
  | nil =>
    intro t ht
    simp [emitEthernets] at ht
  | cons e rest ih =>
    intro t ht
    simp only [emitEthernets] at ht
    rcases List.mem_append.mp ht with h | h
    · exact emitEthernet_no_alias seen e.1 e.2 t h
    · exact ih (emitEthernet true seen e.1 e.2).2 t h

theorem netplan_dump_no_alias (cfg : NetplanConfig) :
    noAlias (netplan_dump_toks true cfg) := by
  intro t ht
  simp only [netplan_dump_toks, emitStr_true_eq, List.cons_append, List.singleton_append,
    List.append_assoc] at ht
  rcases List.mem_cons.mp ht with rfl | h2
  · rfl
  rcases List.mem_cons.mp h2 with rfl | h3
  · rfl
  rcases List.mem_cons.mp h3 with rfl | h4
  · rfl
  rcases List.mem_cons.mp h4 with rfl | h5
  · rfl
  rcases List.mem_cons.mp h5 with rfl | h6
  · rfl
  rcases List.mem_cons.mp h6 with rfl | h7
  · rfl
  exact emitEthernets_no_alias [cfg.renderer] cfg.ethernets t h7

theorem routes_filterMap_eq (routes : List RouteEntry)
    (h : ∀ r ∈ routes, ∃ s, r.ip_or_range = some s ∧ s ≠ "") :
    routes.filterMap (fun r =>
      match truthyStr r.ip_or_range with
      | some t => if r.default then none else some (NetplanRoute.mk t none)
      | none => none) =
    (routes.filter (fun r => !r.default)).map
      (fun r => NetplanRoute.mk (r.ip_or_range.getD "") none) := by
  induction routes with
  | nil => rfl
  | cons r rest ih =>
    obtain ⟨s, hs, hne⟩ := h r (by simp)
    have ih2 := ih (fun x hx => h x (by simp [hx]))
    have hts : truthyStr (some s) = some s := by
      simp [truthyStr, hne]
    have hhead : truthyStr r.ip_or_range = some s := by
      rw [hs, hts]
    rw [List.filterMap_cons, List.filter_cons]
    by_cases hd : r.default = true
    · simp [hhead, hts, hd, ih2]
    · simp [hhead, hts, hd, ih2, hs]

/-- Claim C7: for every interfaces mapping (whose route entries carry a
truthy `ip_or_range`, as the data model requires), the declarative-YAML
generator emits one `ethernets` entry per interface with `dhcp4: false`
always; its `routes` list is exactly the route `{to: "0.0.0.0/0",
via: gateway}` when `gateway` is set (truthy) and nothing otherwise,
followed by `{to: ip_or_range}` for each entry of `routes` whose `default`
field is falsy, entries with `default` true being skipped; and the emitted
YAML token stream contains no anchors or aliases. -/
theorem C7_netplan_generator (ipParse : String → String → Option String)
    (interfaces : List (String × PyInterface))
    (hroutes : ∀ p ∈ interfaces, ∀ r ∈ p.2.routes, ∃ s, r.ip_or_range = some s ∧ s ≠ "") :
    ((generate_netplan_config ipParse interfaces).ethernets =
      interfaces.map (fun p => (p.1, mkEthernet ipParse p.2))) ∧
    (∀ p ∈ interfaces,
      (mkEthernet ipParse p.2).dhcp4 = false ∧
      (mkEthernet ipParse p.2).routes =
        (match truthyStr p.2.gateway with
         | some g => [NetplanRoute.mk "0.0.0.0/0" (some g)]
         | none => []) ++
        (p.2.routes.filter (fun r => !r.default)).map
          (fun r => NetplanRoute.mk (r.ip_or_range.getD "") none)) ∧
    noAlias (generate_netplan_yaml ipParse interfaces) := by
  refine ⟨rfl, ?_, ?_⟩
  · intro p hp
    refine ⟨rfl, ?_⟩
    simp only [mkEthernet]
    rw [routes_filterMap_eq p.2.routes (hroutes p hp)]
  · unfold generate_netplan_yaml noAliasDumper_ignore_aliases
    exact netplan_dump_no_alias _

/-- Witness for C7 at a concrete interfaces mapping: one interface with a
gateway, one non-default route and one default route. -/
theorem C7_netplan_generator_witness :
    ((generate_netplan_config (fun ip _ => some (ip ++ "/24"))
      [("eno1", PyInterface.mk none none (some "10.0.0.2") (some "255.255.255.0") (some "10.0.0.1")
        [RouteEntry.mk (some "192.168.0.0/24") false, RouteEntry.mk (some "0.0.0.0/0") true])]).ethernets =
      ([("eno1", PyInterface.mk none none (some "10.0.0.2") (some "255.255.255.0") (some "10.0.0.1")
        [RouteEntry.mk (some "192.168.0.0/24") false, RouteEntry.mk (some "0.0.0.0/0") true])] :
        List (String × PyInterface)).map (fun p => (p.1, mkEthernet (fun ip _ => some (ip ++ "/24")) p.2))) ∧
    (∀ p ∈ ([("eno1", PyInterface.mk none none (some "10.0.0.2") (some "255.255.255.0") (some "10.0.0.1")
        [RouteEntry.mk (some "192.168.0.0/24") false, RouteEntry.mk (some "0.0.0.0/0") true])] :
        List (String × PyInterface)),
      (mkEthernet (fun ip _ => some (ip ++ "/24")) p.2).dhcp4 = false ∧
      (mkEthernet (fun ip _ => some (ip ++ "/24")) p.2).routes =
        (match truthyStr p.2.gateway with
         | some g => [NetplanRoute.mk "0.0.0.0/0" (some g)]
         | none => []) ++
        (p.2.routes.filter (fun r => !r.default)).map
          (fun r => NetplanRoute.mk (r.ip_or_range.getD "") none)) ∧
    noAlias (generate_netplan_yaml (fun ip _ => some (ip ++ "/24"))
      [("eno1", PyInterface.mk none none (some "10.0.0.2") (some "255.255.255.0") (some "10.0.0.1")
        [RouteEntry.mk (some "192.168.0.0/24") false, RouteEntry.mk (some "0.0.0.0/0") true])]) :=
  C7_netplan_generator (fun ip _ => some (ip ++ "/24"))
    [("eno1", PyInterface.mk none none (some "10.0.0.2") (some "255.255.255.0") (some "10.0.0.1")
        [RouteEntry.mk (some "192.168.0.0/24") false, RouteEntry.mk (some "0.0.0.0/0") true])]
    (by
      intro p hp r hr
      rcases List.mem_singleton.mp hp with rfl
      simp only [] at hr
      rcases List.mem_cons.mp hr with rfl | hr2
      · exact ⟨"192.168.0.0/24", rfl, by decide⟩
      rcases List.mem_singleton.mp hr2 with rfl
      exact ⟨"0.0.0.0/0", rfl, by decide⟩)


theorem all_beq_false (c : Char) (l : List Char) (h : l.all (fun x => x != c) = true) :
    ∀ x ∈ l, (x == c) = false := by
  intro x hx
  have h2 := List.all_eq_true.mp h x hx
  simpa using h2

theorem write_kexec_command_inv (env : Env) (k i c script : String)
    (h : write_kexec_command env k i c = some script) :
    script = "#!/bin/bash\n" ++ kexec_cmd k i c ++ "\n" ++ "kexec -e\n" := by
  unfold write_kexec_command at h
  split at h
  · simp at h
  split at h
  · simp at h
  split at h
  · simp at h
  split at h
  · simp at h
  injection h with h
  exact h.symm

theorem generate_bootstrapped_inv (env : Env) (ign : IgnitionConfig) (ka : String)
    (ru : Option String) (fs : Filesystem) (c s : String)
    (hfs : get_ignition_root ign.filesystems = Except.ok fs)
    (hgen : generate_bootstrapped_file env ign ka ru = Except.ok (some (c, s))) :
    ∃ us, fieldTruthy fs.uuid = some us ∧
      ((¬ "md".data <:+: fs.device.data ∧ c = ka ++ " root=UUID=" ++ us ++ " ") ∨
       (∃ r, "md".data <:+: fs.device.data ∧ truthyStr ru = some r ∧
         c = ka ++ " rd.md=1 rd.md.auto=1 rd.md.uuid=" ++ r ++ " " ++ " root=UUID=" ++
           us ++ " ")) ∧
      s = "#!/bin/bash\n" ++ kexec_cmd "/tmp/vmlinuz" "/tmp/initrd.img" c ++
        "\n" ++ "kexec -e\n" := by
  obtain ⟨dev, fmt, pth, uu⟩ := fs
  unfold generate_bootstrapped_file at hgen
  rw [hfs] at hgen
  rcases uu with _ | _ | ustr
  · exact absurd hgen (by simp)
  · simp only [fieldTruthy] at hgen
    split at hgen
    · exact absurd hgen (by simp)
    · exact absurd hgen (by simp)
  · simp only [fieldTruthy] at hgen
    by_cases hus : ustr = ""
    · rw [if_pos hus] at hgen
      simp only [] at hgen
      split at hgen
      · exact absurd hgen (by simp)
      · exact absurd hgen (by simp)
    · rw [if_neg hus] at hgen
      simp only [] at hgen
      by_cases hmd : "md".data <:+: String.data dev
      · rw [if_pos hmd] at hgen
        rcases htr : truthyStr ru with _ | r
        · rw [htr] at hgen
          exact absurd hgen (by simp)
        · rw [htr] at hgen
          simp only [] at hgen
          split at hgen
          · rename_i script hw
            simp only [Except.ok.injEq, Option.some.injEq, Prod.mk.injEq] at hgen
            obtain ⟨hc, hs⟩ := hgen
            refine ⟨ustr, by simp [fieldTruthy, hus], Or.inr ⟨r, hmd, rfl, hc.symm⟩, ?_⟩
            rw [← hs, write_kexec_command_inv env _ _ _ script hw, hc]
          · exact absurd hgen (by simp)
      · rw [if_neg hmd] at hgen
        simp only [] at hgen
        split at hgen
        · rename_i script hw
          simp only [Except.ok.injEq, Option.some.injEq, Prod.mk.injEq] at hgen
          obtain ⟨hc, hs⟩ := hgen
          refine ⟨ustr, by simp [fieldTruthy, hus], Or.inl ⟨hmd, hc.symm⟩, ?_⟩
          rw [← hs, write_kexec_command_inv env _ _ _ script hw, hc]
        · exact absurd hgen (by simp)

theorem splitPred_cons_no (p : Char → Bool) (x : Char) (l : List Char) (hx : p x = false)
    (r : List Char) (rs : List (List Char)) (h : splitPred p l = r :: rs) :
    splitPred p (x :: l) = (x :: r) :: rs := by
  simp [splitPred, hx, h]

theorem splitPred_cons_sep (p : Char → Bool) (x : Char) (l : List Char) (hx : p x = true) :
    splitPred p (x :: l) = [] :: splitPred p l := by
  simp [splitPred, hx]

theorem splitPred_append_no (p : Char → Bool) (a l : List Char)
    (ha : ∀ x ∈ a, p x = false) (r : List Char) (rs : List (List Char))
    (h : splitPred p l = r :: rs) : splitPred p (a ++ l) = (a ++ r) :: rs := by
  induction a with
  | nil => simpa using h
  | cons x xs ih =>
    have hx := ha x (by simp)
    have ih2 := ih (fun y hy => ha y (by simp [hy]))
    rw [List.cons_append, splitPred_cons_no p x (xs ++ l) hx (xs ++ r) rs ih2]
    simp

theorem countKexec_list (cd : List Char) (hnc : ∀ x ∈ cd, (x == '\n') = false) :
    (splitPred (fun a => a == '\n')
      ("#!/bin/bash".data ++ ('\n' :: ("kexec -l \"".data ++ ("/tmp/vmlinuz".data ++
        ("\" --initrd=\"".data ++ ("/tmp/initrd.img".data ++ ("\" --append=\"".data ++
          (cd ++ ('"' :: '\n' :: ("kexec -e".data ++ ['\n']))))))))))).countP
      (fun l => List.isPrefixOf "kexec -l".data l) = 1 := by
  have hT : splitPred (fun a => a == '\n') ('"' :: '\n' :: ("kexec -e".data ++ ['\n'])) =
      ['"'] :: ["kexec -e".data, []] := by decide
  have hcT := splitPred_append_no (fun a => a == '\n') cd _ hnc _ _ hT
  have h5 := splitPred_append_no (fun a => a == '\n') "\" --append=\"".data _
    (by decide) _ _ hcT
  have h4 := splitPred_append_no (fun a => a == '\n') "/tmp/initrd.img".data _
    (by decide) _ _ h5
  have h3 := splitPred_append_no (fun a => a == '\n') "\" --initrd=\"".data _
    (by decide) _ _ h4
  have h2 := splitPred_append_no (fun a => a == '\n') "/tmp/vmlinuz".data _
    (by decide) _ _ h3
  have h1 := splitPred_append_no (fun a => a == '\n') "kexec -l \"".data _
    (by decide) _ _ h2
  have hcons := (splitPred_cons_sep (fun a => a == '\n') '\n'
    ("kexec -l \"".data ++ ("/tmp/vmlinuz".data ++ ("\" --initrd=\"".data ++
      ("/tmp/initrd.img".data ++ ("\" --append=\"".data ++
        (cd ++ ('"' :: '\n' :: ("kexec -e".data ++ ['\n'])))))))) (by decide)).trans
    (by rw [h1])
  have htop := splitPred_append_no (fun a => a == '\n') "#!/bin/bash".data _
    (by decide) _ _ hcons
  rw [htop]
  simp only [List.countP_cons, List.countP_nil]
  rw [show List.isPrefixOf "kexec -l".data ("#!/bin/bash".data ++ []) = false from by decide]
  rw [show List.isPrefixOf "kexec -l".data "kexec -e".data = false from by decide]
  rw [show List.isPrefixOf "kexec -l".data ([] : List Char) = false from by decide]
  have hqB : List.isPrefixOf "kexec -l".data
      ("kexec -l \"".data ++ ("/tmp/vmlinuz".data ++ ("\" --initrd=\"".data ++
        ("/tmp/initrd.img".data ++ ("\" --append=\"".data ++ (cd ++ ['"'])))))) = true := by
    rw [List.isPrefixOf_iff_prefix]
    exact List.IsPrefix.trans (by decide : "kexec -l".data <+: "kexec -l \"".data)
      (List.prefix_append _ _)
  rw [hqB]
  simp

theorem countKexecLines_script (c : String) (hnc : ∀ x ∈ c.data, (x == '\n') = false) :
    countKexecLines ("#!/bin/bash\n" ++ kexec_cmd "/tmp/vmlinuz" "/tmp/initrd.img" c ++
      "\n" ++ "kexec -e\n") = 1 := by
  have hl : ("#!/bin/bash\n" ++ kexec_cmd "/tmp/vmlinuz" "/tmp/initrd.img" c ++
      "\n" ++ "kexec -e\n").data
      = "#!/bin/bash".data ++ '\n' :: ("kexec -l \"".data ++ ("/tmp/vmlinuz".data ++
        ("\" --initrd=\"".data ++ ("/tmp/initrd.img".data ++ ("\" --append=\"".data ++
          (c.data ++ '"' :: '\n' :: ("kexec -e".data ++ ['\n']))))))) := by
    simp [kexec_cmd, String.data_append]
  unfold countKexecLines splitCh
  rw [hl]
  exact countKexec_list c.data hnc

/-- Claim C1 (amended): for every configuration on which handoff generation
succeeds, provided `kernel_arguments`, the root uuid and the raid uuid are
single-line strings and `kernel_arguments` and the root uuid do not already
contain the text `rd.md`, the generated script contains exactly one
`kexec -l` line, the append string begins with `kernel_arguments`, and: if
the root device contains `md` the append string contains all three tokens
`rd.md=1`, `rd.md.auto=1` and `rd.md.uuid=<raid-uuid>`, while if it does
not, the append string contains no occurrence of `rd.md` at all. -/
theorem C1_kexec_amended (env : Env) (ign : IgnitionConfig) (ka : String)
    (ru : Option String) (fs : Filesystem) (c s : String)
    (hfs : get_ignition_root ign.filesystems = Except.ok fs)
    (hgen : generate_bootstrapped_file env ign ka ru = Except.ok (some (c, s)))
    (hka1 : ∀ x ∈ ka.data, (x == '\n') = false)
    (hka2 : ¬ "rd.md".data <:+: ka.data)
    (huuid : ∀ x, fieldTruthy fs.uuid = some x →
      (∀ y ∈ x.data, (y == '\n') = false) ∧ ¬ "rd.md".data <:+: x.data)
    (hru : ∀ r, truthyStr ru = some r → ∀ y ∈ r.data, (y == '\n') = false) :
    countKexecLines s = 1 ∧
    (∃ rest, c.data = ka.data ++ rest) ∧
    ("md".data <:+: fs.device.data →
      ∃ x, truthyStr ru = some x ∧
        "rd.md=1".data <:+: c.data ∧ "rd.md.auto=1".data <:+: c.data ∧
        ("rd.md.uuid=" ++ x).data <:+: c.data) ∧
    (¬ "md".data <:+: fs.device.data → ¬ "rd.md".data <:+: c.data) := by
  obtain ⟨us, hus, hcase, hs⟩ := generate_bootstrapped_inv env ign ka ru fs c s hfs hgen
  obtain ⟨hnl_us, hmd_us⟩ := huuid us hus
  rcases hcase with ⟨hmd, hc⟩ | ⟨r, hmd, htr, hc⟩
  · have hcd : c.data =
        ka.data ++ (' ' :: ("root=UUID".data ++ '=' :: (us.data ++ [' ']))) := by
      rw [hc]
      simp [String.data_append]
    have hnl : ∀ x ∈ c.data, (x == '\n') = false := by
      intro x hx
      rw [hcd] at hx
      rcases List.mem_append.mp hx with h | h
      · exact hka1 x h
      rcases List.mem_cons.mp h with rfl | h2
      · decide
      rcases List.mem_append.mp h2 with h3 | h3
      · exact (by decide : ∀ y ∈ "root=UUID".data, (y == '\n') = false) x h3
      rcases List.mem_cons.mp h3 with rfl | h4
      · decide
      rcases List.mem_append.mp h4 with h5 | h5
      · exact hnl_us x h5
      · rcases List.mem_singleton.mp h5 with rfl
        decide
    refine ⟨?_, ⟨_, hcd⟩, ?_, ?_⟩
    · rw [hs]
      exact countKexecLines_script c hnl
    · intro h
      exact absurd h hmd
    · intro _
      rw [hcd]
      refine not_infix_append_sep (by decide) hka2 ?_
      refine not_infix_append_sep (by decide) (by decide) ?_
      refine not_infix_append_sep (by decide) hmd_us ?_
      intro hinf
      rw [List.infix_nil] at hinf
      exact absurd hinf (by decide)
  · have hcd : c.data =
        ka.data ++ (' ' :: ("rd.md=1 rd.md.auto=1 rd.md.uuid=".data ++
          (r.data ++ ' ' :: ' ' :: ("root=UUID".data ++ '=' :: (us.data ++ [' ']))))) := by
      rw [hc]
      simp [String.data_append]
    have hnlr := hru r htr
    have hnl : ∀ x ∈ c.data, (x == '\n') = false := by
      intro x hx
      rw [hcd] at hx
      rcases List.mem_append.mp hx with h | h
      · exact hka1 x h
      rcases List.mem_cons.mp h with rfl | h2
      · decide
      rcases List.mem_append.mp h2 with h3 | h3
      · exact (by decide : ∀ y ∈ "rd.md=1 rd.md.auto=1 rd.md.uuid=".data,
          (y == '\n') = false) x h3
      rcases List.mem_append.mp h3 with h4 | h4
      · exact hnlr x h4
      rcases List.mem_cons.mp h4 with rfl | h5
      · decide
      rcases List.mem_cons.mp h5 with rfl | h6
      · decide
      rcases List.mem_append.mp h6 with h7 | h7
      · exact (by decide : ∀ y ∈ "root=UUID".data, (y == '\n') = false) x h7
      rcases List.mem_cons.mp h7 with rfl | h8
      · decide
      rcases List.mem_append.mp h8 with h9 | h9
      · exact hnl_us x h9
      · rcases List.mem_singleton.mp h9 with rfl
        decide
    have hembed : "rd.md=1 rd.md.auto=1 rd.md.uuid=".data <:+: c.data := by
      refine ⟨ka.data ++ [' '],
        r.data ++ ' ' :: ' ' :: ("root=UUID".data ++ '=' :: (us.data ++ [' '])), ?_⟩
      rw [hcd]
      simp [List.append_assoc]
    refine ⟨?_, ⟨_, hcd⟩, ?_, ?_⟩
    · rw [hs]
      exact countKexecLines_script c hnl
    · intro _
      refine ⟨r, htr, List.IsInfix.trans (by decide) hembed,
        List.IsInfix.trans (by decide) hembed, ?_⟩
      refine ⟨ka.data ++ " rd.md=1 rd.md.auto=1 ".data,
        ' ' :: ' ' :: ("root=UUID".data ++ '=' :: (us.data ++ [' '])), ?_⟩
      rw [hcd]
      simp [String.data_append, List.append_assoc]
    · intro h
      exact absurd hmd h

set_option maxRecDepth 100000 in
/-- Claim C1 (counterexample): with the non-RAID root device `/dev/sda2`
(uuid `1111-AAAA`) and a `kernel_arguments` value that itself contains a
newline and the three `rd.md` tokens, generation succeeds but the handoff
script contains two `kexec -l` lines and the append string contains all
three tokens although the device is not a RAID device — the claim as
stated is false. -/
theorem C1_kexec_counterexample :
    ¬ C1ClaimStatement (Env.mk true true true)
      (IgnitionConfig.mk [Filesystem.mk "/dev/sda2" "ext4" "/" (PyStrField.str "1111-AAAA")])
      "quiet\nkexec -l fake rd.md=1 rd.md.auto=1 rd.md.uuid=0" none := by
  intro h
  have h2 := h (Filesystem.mk "/dev/sda2" "ext4" "/" (PyStrField.str "1111-AAAA"))
    ("quiet\nkexec -l fake rd.md=1 rd.md.auto=1 rd.md.uuid=0" ++ " root=UUID=" ++
      "1111-AAAA" ++ " ")
    ("#!/bin/bash\n" ++ kexec_cmd "/tmp/vmlinuz" "/tmp/initrd.img"
      ("quiet\nkexec -l fake rd.md=1 rd.md.auto=1 rd.md.uuid=0" ++ " root=UUID=" ++
        "1111-AAAA" ++ " ") ++ "\n" ++ "kexec -e\n")
    rfl rfl
  exact absurd h2.1 (by decide)

set_option maxRecDepth 100000 in
/-- Witness for C1 (amended) at a concrete RAID configuration: root device
`/dev/md0`, root uuid `1111-AAAA`, raid uuid `00000000-1111`,
kernel arguments `ro quiet`. -/
theorem C1_kexec_amended_witness :
    countKexecLines "#!/bin/bash\nkexec -l \"/tmp/vmlinuz\" --initrd=\"/tmp/initrd.img\" --append=\"ro quiet rd.md=1 rd.md.auto=1 rd.md.uuid=00000000-1111  root=UUID=1111-AAAA \"\nkexec -e\n" = 1 ∧
    (∃ rest,
      ("ro quiet rd.md=1 rd.md.auto=1 rd.md.uuid=00000000-1111  root=UUID=1111-AAAA " : String).data =
        ("ro quiet" : String).data ++ rest) ∧
    ("md".data <:+: ("/dev/md0" : String).data →
      ∃ x, truthyStr (some "00000000-1111") = some x ∧
        "rd.md=1".data <:+:
          ("ro quiet rd.md=1 rd.md.auto=1 rd.md.uuid=00000000-1111  root=UUID=1111-AAAA " : String).data ∧
        "rd.md.auto=1".data <:+:
          ("ro quiet rd.md=1 rd.md.auto=1 rd.md.uuid=00000000-1111  root=UUID=1111-AAAA " : String).data ∧
        ("rd.md.uuid=" ++ x).data <:+:
          ("ro quiet rd.md=1 rd.md.auto=1 rd.md.uuid=00000000-1111  root=UUID=1111-AAAA " : String).data) ∧
    (¬ "md".data <:+: ("/dev/md0" : String).data →
      ¬ "rd.md".data <:+:
        ("ro quiet rd.md=1 rd.md.auto=1 rd.md.uuid=00000000-1111  root=UUID=1111-AAAA " : String).data) :=
  C1_kexec_amended (Env.mk true true true)
    (IgnitionConfig.mk [Filesystem.mk "/dev/md0" "ext4" "/" (PyStrField.str "1111-AAAA")])
    "ro quiet" (some "00000000-1111")
    (Filesystem.mk "/dev/md0" "ext4" "/" (PyStrField.str "1111-AAAA"))
    "ro quiet rd.md=1 rd.md.auto=1 rd.md.uuid=00000000-1111  root=UUID=1111-AAAA "
    "#!/bin/bash\nkexec -l \"/tmp/vmlinuz\" --initrd=\"/tmp/initrd.img\" --append=\"ro quiet rd.md=1 rd.md.auto=1 rd.md.uuid=00000000-1111  root=UUID=1111-AAAA \"\nkexec -e\n"
    rfl rfl (by decide) (by decide)
    (by
      intro x hx
      have hx2 : some "1111-AAAA" = some x := by
        simpa [fieldTruthy] using hx
      injection hx2 with hx2
      rw [← hx2]
      exact ⟨by decide, by decide⟩)
    (by
      intro r hr
      have hr2 : some "00000000-1111" = some r := by
        simpa [truthyStr] using hr
      injection hr2 with hr2
      rw [← hr2]
      decide)

/-- Claim C10: `compare_file_mtime_with_unix_timestamp` is total and
returns only one of 1, 0, -1 or -2, never raising: 1, 0 and -1 report the
file mtime being greater than, equal to, or less than the parsed integer
timestamp, and -2 is returned when the file is missing, the timestamp
string does not parse as an integer, or any other error occurs — in
particular when `datetime.datetime.fromtimestamp` raises for the file
mtime or for the parsed timestamp (init.py:615 and 622). -/
theorem C10_compare_total (fromtsOk : Int → Bool) (mtime : Option Int) (s : String) :
    (compare_file_mtime_with_unix_timestamp fromtsOk mtime s = 1 ∨
     compare_file_mtime_with_unix_timestamp fromtsOk mtime s = 0 ∨
     compare_file_mtime_with_unix_timestamp fromtsOk mtime s = -1 ∨
     compare_file_mtime_with_unix_timestamp fromtsOk mtime s = -2) ∧
    (mtime = none → compare_file_mtime_with_unix_timestamp fromtsOk mtime s = -2) ∧
    (pyIntParse s = none → compare_file_mtime_with_unix_timestamp fromtsOk mtime s = -2) ∧
    (∀ m, mtime = some m → fromtsOk m = false →
      compare_file_mtime_with_unix_timestamp fromtsOk mtime s = -2) ∧
    (∀ t, pyIntParse s = some t → fromtsOk t = false →
      compare_file_mtime_with_unix_timestamp fromtsOk mtime s = -2) ∧
    (∀ m t, mtime = some m → pyIntParse s = some t →
      fromtsOk m = true → fromtsOk t = true →
      compare_file_mtime_with_unix_timestamp fromtsOk mtime s =
        if m > t then 1 else if m < t then -1 else 0) ∧
    (∀ m t, mtime = some m → pyIntParse s = some t →
      (compare_file_mtime_with_unix_timestamp fromtsOk mtime s = 1 → m > t) ∧
      (compare_file_mtime_with_unix_timestamp fromtsOk mtime s = -1 → m < t) ∧
      (compare_file_mtime_with_unix_timestamp fromtsOk mtime s = 0 → m = t)) := by
  unfold compare_file_mtime_with_unix_timestamp compare_mtime_core
  rcases mtime with _ | m
  · simp
  · rcases hp : pyIntParse s with _ | t
    · simp only [hp]
      by_cases hfm : fromtsOk m = false
      · simp [hfm]
      · simp [hfm]
    · simp only [hp]
      by_cases hfm : fromtsOk m = false
      · simp only [hfm, if_true]
        refine ⟨by simp, by simp, by simp, by simp, by simp, ?_, ?_⟩
        · intro m2 t2 hm2 _ hfm2 _
          injection hm2 with hm2
          subst hm2
          rw [hfm2] at hfm
          cases hfm
        · intro m2 t2 _ _
          refine ⟨fun h => absurd h (by decide), fun h => absurd h (by decide),
            fun h => absurd h (by decide)⟩
      · have hfmT : fromtsOk m = true := by
          revert hfm
          cases fromtsOk m <;> simp
        by_cases hft : fromtsOk t = false
        · simp only [hfmT, hft]
          simp only [Bool.true_eq_false, if_false, if_true]
          refine ⟨by simp, by simp, by simp, ?_, by simp, ?_, ?_⟩
          · intro m2 hm2 hfm2
            injection hm2 with hm2
            subst hm2
            rw [hfm2] at hfmT
            cases hfmT
          · intro m2 t2 hm2 ht2 _ hft2
            injection ht2 with ht2
            subst ht2
            rw [hft2] at hft
            cases hft
          · intro m2 t2 _ _
            refine ⟨fun h => absurd h (by decide), fun h => absurd h (by decide),
              fun h => absurd h (by decide)⟩
        · have hftT : fromtsOk t = true := by
            revert hft
            cases fromtsOk t <;> simp
          simp only [hfmT, hftT, Bool.true_eq_false, if_false]
          rcases lt_trichotomy m t with hlt | heq | hgt
          · have hng : ¬ m > t := by omega
            simp only [hng, hlt, if_true, if_false]
            refine ⟨by simp, by simp, by simp, ?_, ?_, ?_, ?_⟩
            · intro m2 hm2 hfm2
              injection hm2 with hm2
              subst hm2
              rw [hfm2] at hfmT
              cases hfmT
            · intro t2 ht2 hft2
              injection ht2 with ht2
              subst ht2
              rw [hft2] at hftT
              cases hftT
            · intro m2 t2 hm2 ht2 _ _
              injection hm2 with hm2
              injection ht2 with ht2
              subst hm2
              subst ht2
              simp [hng, hlt]
            · intro m2 t2 hm2 ht2
              injection hm2 with hm2
              injection ht2 with ht2
              subst hm2
              subst ht2
              refine ⟨fun h => absurd h (by decide), fun _ => hlt,
                fun h => absurd h (by decide)⟩
          · subst heq
            have hng : ¬ m > m := by omega
            have hnl : ¬ m < m := by omega
            simp only [hng, hnl, if_false]
            refine ⟨by simp, by simp, by simp, ?_, ?_, ?_, ?_⟩
            · intro m2 hm2 hfm2
              injection hm2 with hm2
              subst hm2
              rw [hfm2] at hfmT
              cases hfmT
            · intro t2 ht2 hft2
              injection ht2 with ht2
              subst ht2
              rw [hft2] at hftT
              cases hftT
            · intro m2 t2 hm2 ht2 _ _
              injection hm2 with hm2
              injection ht2 with ht2
              subst hm2
              subst ht2
              simp [hng, hnl]
            · intro m2 t2 hm2 ht2
              injection hm2 with hm2
              injection ht2 with ht2
              subst hm2
              subst ht2
              refine ⟨fun h => absurd h (by decide), fun h => absurd h (by decide),
                fun _ => rfl⟩
          · have hg : m > t := hgt
            simp only [hg, if_true]
            refine ⟨by simp, by simp, by simp, ?_, ?_, ?_, ?_⟩
            · intro m2 hm2 hfm2
              injection hm2 with hm2
              subst hm2
              rw [hfm2] at hfmT
              cases hfmT
            · intro t2 ht2 hft2
              injection ht2 with ht2
              subst ht2
              rw [hft2] at hftT
              cases hftT
            · intro m2 t2 hm2 ht2 _ _
              injection hm2 with hm2
              injection ht2 with ht2
              subst hm2
              subst ht2
              simp [hg]
            · intro m2 t2 hm2 ht2
              injection hm2 with hm2
              injection ht2 with ht2
              subst hm2
              subst ht2
              refine ⟨fun _ => hg, fun h => absurd h (by decide),
                fun h => absurd h (by decide)⟩

/-- Witness for C10 at a concrete input: with the representative
`fromtimestamp` range, file mtime 5 against timestamp string "3" compares
as 1. -/
theorem C10_compare_total_witness :
    compare_file_mtime_with_unix_timestamp datetimeRangeOk (some 5) "3" = 1 := by
  have h := (C10_compare_total datetimeRangeOk (some 5) "3").2.2.2.2.2.1 5 3 rfl
    (by decide) (by decide) (by decide)
  rw [h]
  decide

/-- Claim C3 (counterexample): with the marker present at mtime 1000 and
`config_timestamp` 3·10¹¹ — far larger than the mtime — the program does
not regenerate the handoff script: `datetime.datetime.fromtimestamp`
raises for a timestamp beyond year 9999 (init.py:622), the comparison
helper returns -2, and `main` only prints "failed to compare config
timestamp" (init.py:923-924).  The claimed "regenerates iff marker absent
or mtime < config_timestamp" is therefore false as stated. -/
theorem C3_handoff_counterexample : ¬ C3ClaimStatement datetimeRangeOk := by
  intro h
  have h2 := (h (MarkerState.mk true 1000) 1100 300000000000).mpr (Or.inr (by decide))
  exact absurd h2 (by decide)

/-- Claim C3 (amended): provided the marker mtime and `config_timestamp`
are both within the range `datetime.datetime.fromtimestamp` accepts, the
orchestrator regenerates the handoff script if and only if the
`BOOTSTRAPPED_MARKER` is absent or its mtime is less than
`config_timestamp`, and when the marker exists with mtime greater than
`config_timestamp` the run leaves the handoff script (and the marker
state) untouched.  Generation is assumed to succeed (`genSucceeds` fixed
to `true`). -/
theorem C3_timestamp_reconciliation_amended (fromtsOk : Int → Bool) (st : MarkerState)
    (newMtime ts : Int) (hm : fromtsOk st.mtime = true) (ht : fromtsOk ts = true) :
    ((main_handoff_step fromtsOk st true newMtime ts).1 = true ↔
      (st.present = false ∨ st.mtime < ts)) ∧
    (st.present = true → ts < st.mtime →
      main_handoff_step fromtsOk st true newMtime ts = (false, st)) := by
  rcases st with ⟨pres, m⟩
  have hm2 : fromtsOk m = true := hm
  cases pres
  · have hval : main_handoff_step fromtsOk (MarkerState.mk false m) true newMtime ts =
        (true, MarkerState.mk true newMtime) := by
      simp [main_handoff_step, compare_mtime_core]
    rw [hval]
    constructor
    · simp
    · intro h
      simp at h
  · constructor
    · by_cases h1 : m < ts
      · have h2 : ¬ m > ts := by omega
        simp [main_handoff_step, compare_mtime_core, hm2, ht, h1, h2]
      · by_cases h2 : m > ts
        · simp [main_handoff_step, compare_mtime_core, hm2, ht, h1, h2]
        · simp [main_handoff_step, compare_mtime_core, hm2, ht, h1, h2]
    · intro _ h
      have h3 : ts < m := h
      have h1 : ¬ m < ts := by omega
      have h2 : m > ts := by omega
      simp [main_handoff_step, compare_mtime_core, hm2, ht, h1, h2]

/-- Witness for C3 (amended) at a concrete input: marker present with
mtime 600, `config_timestamp` 500 (scenario S2), both timestamps within
range — nothing is rewritten and the marker state is unchanged. -/
theorem C3_timestamp_reconciliation_amended_witness :
    main_handoff_step datetimeRangeOk (MarkerState.mk true 600) true 700 500 =
      (false, MarkerState.mk true 600) :=
  (C3_timestamp_reconciliation_amended datetimeRangeOk (MarkerState.mk true 600) 700 500
    (by decide) (by decide)).2 rfl (by decide)
